import Mathlib

/-!
Shallow embedding of `src/dashboard.py` (oral_exam_bot).

Python strings are modelled as `List Char` (`PyStr`); the relevant
`str` methods (`strip`, `split`, `join`, `replace`, `lower`, `format`,
slicing) are modelled by explicit recursive functions below.  External
effects (the two hosted APIs, file reads, UTF-8 decoding, `json.loads`)
are passed in as parameters: an `Except`/`Option` value stands for
"the call returned this value or raised this exception".
-/

set_option autoImplicit false

namespace OralExamBot

/-- Python `str`, modelled as a list of characters. -/
abbrev PyStr := List Char

/-- Whitespace characters removed by Python `str.strip()` (ASCII range). -/
def isPySpace (c : Char) : Bool :=
  c = ' ' || c = '\t' || c = '\n' || c = '\r' || c = '\x0b' || c = '\x0c'

/-- Python `s.strip()`: drop leading and trailing whitespace. -/
def pyStrip (s : PyStr) : PyStr :=
  ((s.dropWhile isPySpace).reverse.dropWhile isPySpace).reverse

/-- Helper for `pySplitOn`: returns the first field and the remaining fields. -/
def pySplitOnAux (sep : Char) : PyStr → PyStr × List PyStr
  | [] => ([], [])
  | c :: rest =>
    let p := pySplitOnAux sep rest
    if c = sep then ([], p.1 :: p.2) else (c :: p.1, p.2)

/-- Python `s.split(sep)` for a single-character separator:
`"".split(sep) = [""]`, and every occurrence of `sep` starts a new field. -/
def pySplitOn (sep : Char) (s : PyStr) : List PyStr :=
  (pySplitOnAux sep s).1 :: (pySplitOnAux sep s).2

/-- Python `sep.join(parts)`. -/
def pyJoin (sep : PyStr) : List PyStr → PyStr
  | [] => []
  | [x] => x
  | x :: y :: rest => x ++ sep ++ pyJoin sep (y :: rest)

/-- Everything after the first occurrence of `c`; `[]` when `c` is absent.
Models Python `s.split(c, 1)[1]` when `c ∈ s`. -/
def afterFirst (c : Char) : PyStr → PyStr
  | [] => []
  | x :: rest => if x = c then rest else afterFirst c rest

/-- Python `s.lower()` (ASCII range). -/
def pyLower (s : PyStr) : PyStr := s.map Char.toLower

/-- Fuel-indexed core of `pyReplace`.  Each step consumes at least one
character of the string, so fuel `s.length` always suffices; the fuel only
makes the recursion structural (hence kernel-reducible). -/
def pyReplaceAux (pat : PyStr) : Nat → PyStr → PyStr
  | _, [] => []
  | 0, s => s
  | fuel + 1, c :: rest =>
    if pat ≠ [] ∧ pat.isPrefixOf (c :: rest) then
      pyReplaceAux pat fuel ((c :: rest).drop pat.length)
    else c :: pyReplaceAux pat fuel rest

/-- Python `s.replace(pat, '')`: delete every (left-to-right,
non-overlapping) occurrence of `pat`. -/
def pyReplace (pat s : PyStr) : PyStr := pyReplaceAux pat s.length s

/-- Python substring test `pat in s`. -/
def containsSeq (pat : PyStr) : PyStr → Bool
  | [] => pat.isEmpty
  | c :: rest => pat.isPrefixOf (c :: rest) || containsSeq pat rest

/-- Rendering of a natural number, for Python f-string fields like `f"{i}. "`. -/
def pyNat (n : Nat) : PyStr := (Nat.repr n).data

/-- Numbering helper: Python `enumerate(xs, n)`. -/
def enumFrom {α : Type} (n : Nat) : List α → List (Nat × α)
  | [] => []
  | x :: xs => (n, x) :: enumFrom (n + 1) xs

/-! ## Python values returned by `json.loads` -/

/-- A Python value as produced by `json.loads` (numbers are irrelevant to
every claim and are modelled as integers). -/
inductive JVal where
  | null
  | bool (b : Bool)
  | num (n : Int)
  | str (s : PyStr)
  | arr (xs : List JVal)
  | obj (fields : List (PyStr × JVal))

/-- Python `d[k]` combined with `k in d` for a dict built by `json.loads`:
later duplicate keys overwrite earlier ones, so the last binding wins. -/
def dictGet (k : PyStr) (fields : List (PyStr × JVal)) : Option JVal :=
  fields.foldl (fun acc p => if p.1 = k then some p.2 else acc) none

/-- Outcome of one of the five operations: a returned value, a caught
exception surfaced via `st.error` followed by `return None`, or an
exception that escapes the function. -/
inductive CallResult (α : Type) where
  | ok (a : α)
  | errorShown
  | uncaught (e : PyStr)

/-- `true` exactly on `CallResult.uncaught`. -/
def isUncaught {α : Type} : CallResult α → Bool
  | .uncaught _ => true
  | _ => false

/-! ## `parse_uploaded_questions` (dashboard.py lines 94-112) -/

/-- The MIME type string checked by `parse_uploaded_questions`. -/
def jsonMime : PyStr := "application/json".data

/-- An uploaded file as seen by `parse_uploaded_questions`.  `jsonParsed`
is the result of `json.loads(f.read().decode('utf-8'))` (`none` when
reading, decoding or JSON parsing raises); `textDecoded` is the result of
`f.read().decode('utf-8')` (`none` when decoding raises). -/
structure UploadedFile where
  type : PyStr
  jsonParsed : Option JVal
  textDecoded : Option PyStr

/-- `parse_uploaded_questions` (dashboard.py lines 94-112).  The JSON
branch returns the parsed list, or the value under key `'questions'` of a
parsed dict; the text branch returns the stripped non-blank lines.  Every
exception is caught by the surrounding `try`/`except` and surfaced as an
error message (`errorShown`). -/
def parse_uploaded_questions (f : UploadedFile) : CallResult JVal :=
  if f.type = jsonMime then
    match f.jsonParsed with
    | none => .errorShown
    | some (.arr xs) => .ok (.arr xs)
    | some (.obj fields) =>
      match dictGet ("questions".data) fields with
      | some v => .ok v
      | none => .errorShown
    | some _ => .errorShown
  else
    match f.textDecoded with
    | none => .errorShown
    | some content =>
      .ok (.arr ((((pySplitOn '\n' content).map pyStrip).filter
        (fun l => !l.isEmpty)).map .str))

/-- Claim-side predicate for C7: the parsed JSON top level is a list, or a
dict containing the key `'questions'` (`none` = invalid UTF-8/JSON). -/
def jsonTopLevelOk : Option JVal → Bool
  | some (.arr _) => true
  | some (.obj fields) => (dictGet ("questions".data) fields).isSome
  | _ => false

/-! ## `generate_questions` (dashboard.py lines 47-92) -/

/-- Python truthiness-and-content test on a (stripped) line in
`generate_questions`: `if line and ('.' in line or '?' in line)`. -/
def keepLine (l : PyStr) : Bool :=
  !l.isEmpty && (l.contains '.' || l.contains '?')

/-- `line[0].isdigit()` (false on the empty string, which the code never
reaches because of the preceding truthiness test). -/
def digitLead : PyStr → Bool
  | [] => false
  | c :: _ => c.isDigit

/-- The numbering-removal step of `generate_questions`:
`if line[0].isdigit(): line = line.split('.', 1)[1].strip()`.
`line.split('.', 1)[1]` raises `IndexError` when the line contains no
`'.'`; that outcome is `none`. -/
def stripNumbering (l : PyStr) : Option PyStr :=
  if digitLead l then
    if l.contains '.' then some (pyStrip (afterFirst '.' l)) else none
  else some l

/-- The line loop of `generate_questions` (dashboard.py lines 80-87):
`none` when any iteration raises `IndexError`. -/
def parseQuestionLines : List PyStr → Option (List PyStr)
  | [] => some []
  | raw :: rest =>
    let l := pyStrip raw
    if keepLine l then
      match stripNumbering l with
      | none => none
      | some q =>
        match parseQuestionLines rest with
        | none => none
        | some qs => some (q :: qs)
    else parseQuestionLines rest

/-- The parsing step of `generate_questions` applied to the model
response `content` (dashboard.py lines 79-87). -/
def parse_questions (content : PyStr) : Option (List PyStr) :=
  parseQuestionLines (pySplitOn '\n' (pyStrip content))

/-- Claim-side per-line transformation of C2: drop the text up to and
including the first `'.'` and strip, on kept lines whose first character
is a digit; keep every other line unchanged. -/
def numberingDropped (l : PyStr) : PyStr :=
  if digitLead l then pyStrip (afterFirst '.' l) else l

/-- The prompt built by `generate_questions` (dashboard.py lines 54-62). -/
def questionPrompt (topic : PyStr) (numQuestions : Nat) (difficulty : PyStr) : PyStr :=
  ("Generate ".data) ++ pyNat numQuestions ++ (" ".data) ++ pyLower difficulty ++
  (" level oral exam questions for the topic: ".data) ++ topic ++
  ("\n\nThe questions should be:\n- Clear and specific\n- Appropriate for ".data) ++
  pyLower difficulty ++
  (" level understanding\n- Suitable for oral examination\n- Designed to test comprehension and critical thinking\n\nReturn only the questions, one per line, numbered 1., 2., etc.".data)

/-- Python truthiness of an API key obtained from `os.getenv`:
`if not api_key:` fails the check both when the variable is unset
(`None`) and when it is set to the empty string. -/
def keyTruthy : Option PyStr → Bool
  | some (_ :: _) => true
  | _ => false

/-- `generate_questions` (dashboard.py lines 47-92).  `apiKey` is
`os.getenv('OPENROUTER_API_KEY')`; `apiResponse` is the outcome of the
chat-completion call (`Except.error` = the call raised).
`if not api_key:` is a truthiness test, so an unset key and an empty
key both show the error and return `None`.  Everything after the key
check runs inside `try`/`except`, so both an API exception and the
`IndexError` of the parsing step surface as an error message. -/
def generate_questions (apiKey : Option PyStr) (topic : PyStr) (numQuestions : Nat)
    (difficulty : PyStr) (apiResponse : Except PyStr PyStr) : CallResult (List PyStr) :=
  match apiKey with
  | none => .errorShown
  | some [] => .errorShown
  | some (_ :: _) =>
    let _prompt := questionPrompt topic numQuestions difficulty
    match apiResponse with
    | .error _ => .errorShown
    | .ok content =>
      match parse_questions content with
      | none => .errorShown
      | some qs => .ok qs

/-! ## `generate_rubric` (dashboard.py lines 114-204) -/

/-- `questions_text` (dashboard.py line 121):
`'\n'.join([f"{i+1}. {q}" for i, q in enumerate(questions)])`. -/
def questionsText (questions : List PyStr) : PyStr :=
  pyJoin ['\n'] ((enumFrom 1 questions).map
    (fun p => pyNat p.1 ++ ('.' :: ' ' :: []) ++ p.2))

/-- Fuel-indexed core of `pyFormat`.  Each step consumes at least one
character, so fuel `s.length` suffices; the fuel only makes the recursion
structural.  Replacement fields are plain names (the repository's prompts
use only `topic` and `questions` with no conversion or format spec). -/
def pyFormatAux (topic questions : PyStr) : Nat → PyStr → Except PyStr PyStr
  | _, [] => .ok []
  | 0, s => .ok s
  | fuel + 1, '{' :: '{' :: rest =>
    match pyFormatAux topic questions fuel rest with
    | .ok out => .ok ('{' :: out)
    | .error e => .error e
  | fuel + 1, '}' :: '}' :: rest =>
    match pyFormatAux topic questions fuel rest with
    | .ok out => .ok ('}' :: out)
    | .error e => .error e
  | fuel + 1, '{' :: rest =>
    let field := rest.takeWhile (fun c => c ≠ '}')
    if rest.contains '}' then
      if field = "topic".data then
        match pyFormatAux topic questions fuel (rest.drop (field.length + 1)) with
        | .ok out => .ok (topic ++ out)
        | .error e => .error e
      else if field = "questions".data then
        match pyFormatAux topic questions fuel (rest.drop (field.length + 1)) with
        | .ok out => .ok (questions ++ out)
        | .error e => .error e
      else .error field
    else .error ("Single open brace".data)
  | _ + 1, '}' :: _ => .error ("Single close brace".data)
  | fuel + 1, c :: rest =>
    match pyFormatAux topic questions fuel rest with
    | .ok out => .ok (c :: out)
    | .error e => .error e

/-- Python `s.format(topic=topic, questions=questions)`:
`Except.error` models the `KeyError`/`ValueError` raised on an unknown
replacement field or an unmatched brace (the error payload identifies the
offending field or brace). -/
def pyFormat (topic questions s : PyStr) : Except PyStr PyStr :=
  pyFormatAux topic questions s.length s

/-- The checkbox characters removed by the rubric parser. -/
def checkboxChars : List Char := ['□', '☐', '☑', '✓']

/-- The bullet characters of `line.startswith(('-', '•', '*', '+'))`. -/
def bulletChars : List Char := ['-', '•', '*', '+']

/-- The two-character numbered-list prefixes `'1.'` .. `'9.'`. -/
def numPrefixes2 : List PyStr :=
  [['1', '.'], ['2', '.'], ['3', '.'], ['4', '.'], ['5', '.'],
   ['6', '.'], ['7', '.'], ['8', '.'], ['9', '.']]

/-- The three-character numbered-list prefixes `'10.'`, `'11.'`, `'12.'`. -/
def numPrefixes3 : List PyStr :=
  [['1', '0', '.'], ['1', '1', '.'], ['1', '2', '.']]

/-- The keyword list of the rubric parser's fallback branch. -/
def rubricKeywords : List PyStr :=
  ["student".data, "demonstrate".data, "shows".data,
   "provides".data, "explains".data, "uses".data]

/-- `'□' in line or '☐' in line or '☑' in line or '✓' in line`. -/
def hasCheckbox (line : PyStr) : Bool :=
  line.any (fun c => checkboxChars.contains c)

/-- `line.startswith(('-', '•', '*', '+'))`. -/
def bulletLead : PyStr → Bool
  | [] => false
  | c :: _ => bulletChars.contains c

/-- `line[0:2] in ['1.', ..., '9.'] or line[0:3] in ['10.', '11.', '12.']`. -/
def numberLead (line : PyStr) : Bool :=
  numPrefixes2.contains (line.take 2) || numPrefixes3.contains (line.take 3)

/-- `(is_criterion, criterion)` for one stripped non-blank line of the
rubric response (dashboard.py lines 175-193). -/
def rubricLineCriterion (line : PyStr) : Bool × PyStr :=
  if hasCheckbox line then
    (true, pyStrip (line.filter (fun c => !checkboxChars.contains c)))
  else if bulletLead line then
    (true, pyStrip line.tail)
  else if numberLead line then
    (true, if line.contains '.' then pyStrip (afterFirst '.' line) else line)
  else if decide (line.length > 10) &&
      rubricKeywords.any (fun w => containsSeq w (pyLower line)) then
    (true, line)
  else (false, line)

/-- The final filter of the rubric parser (dashboard.py lines 195-199):
length check, then `'**'`/`'__'` removal and strip, then the
non-empty/ends-with-colon check. -/
def rubricPostFilter (criterion : PyStr) : Option PyStr :=
  if !criterion.isEmpty && decide (criterion.length > 5) then
    let c2 := pyStrip (pyReplace ('_' :: '_' :: []) (pyReplace ('*' :: '*' :: []) criterion))
    if !c2.isEmpty && !(c2.getLast? == some ':') then some c2 else none
  else none

/-- The contribution of one raw response line to the rubric criteria list
(`none` = the line is skipped). -/
def rubricLineResult (raw : PyStr) : Option PyStr :=
  let line := pyStrip raw
  if line.isEmpty then none
  else
    let p := rubricLineCriterion line
    if p.1 then rubricPostFilter p.2 else none

/-- The parsing step of `generate_rubric` applied to the model response
`content` (dashboard.py lines 165-201). -/
def parse_rubric (content : PyStr) : List PyStr :=
  (pySplitOn '\n' (pyStrip content)).filterMap rubricLineResult

/-- The default rubric prompt (dashboard.py lines 126-148), an f-string
built when no custom prompt is in use. -/
def defaultRubricPrompt (topic qtext : PyStr) : PyStr :=
  ("Create a comprehensive binary rubric for evaluating oral exam responses on the topic: ".data) ++
  topic ++ ("\n\nQuestions to be evaluated:\n".data) ++ qtext ++
  ("\n\nGenerate a rubric with 6-10 binary criteria (Yes/No) that covers these dimensions:\n- Content Knowledge & Accuracy\n- Communication & Clarity  \n- Critical Thinking & Analysis\n- Subject-Specific Skills\n- Engagement & Preparation\n\nFor each criterion:\n1. Provide a clear, specific statement\n2. Make it binary (achievable with Yes/No)\n3. Ensure it's relevant to ".data) ++
  topic ++
  ("\n4. Make it measurable and objective\n\nDelineate which criteria apply overall and which apply to a specific questions. Do not include any preamble.\nFormat as:\n☐ Criterion # (Overall or Q1/2/etc.) Criterion\n\nFocus on criteria that help distinguish between different levels of understanding and preparation.".data)

/-- `generate_rubric` (dashboard.py lines 114-204).  `if not api_key:`
is a truthiness test, so an unset key and an empty key both show the
error and return `None` before anything else runs.  The prompt
construction also runs before the `try` block, so a custom prompt whose
`format` call raises produces an uncaught exception; the API call and
the parsing run inside `try`/`except`.  `if custom_prompt:` is likewise
a truthiness test, so an empty custom prompt selects the default
prompt. -/
def generate_rubric (apiKey : Option PyStr) (topic : PyStr) (questions : List PyStr)
    (customPrompt : Option PyStr) (apiResponse : Except PyStr PyStr) :
    CallResult (List PyStr) :=
  match apiKey with
  | none => .errorShown
  | some [] => .errorShown
  | some (_ :: _) =>
    let qtext := questionsText questions
    match customPrompt with
    | some (c :: cs) =>
      match pyFormat topic qtext (c :: cs) with
      | .error e => .uncaught e
      | .ok _prompt =>
        match apiResponse with
        | .error _ => .errorShown
        | .ok content => .ok (parse_rubric content)
    | _ =>
      let _prompt := defaultRubricPrompt topic qtext
      match apiResponse with
      | .error _ => .errorShown
      | .ok content => .ok (parse_rubric content)

/-- Claim-side predicate for C4: the custom prompt is present, non-empty
(Python truthiness) and its `format` call raises. -/
def rubricFormatErr (topic : PyStr) (questions : List PyStr) : Option PyStr → Bool
  | some (c :: cs) =>
    match pyFormat topic (questionsText questions) (c :: cs) with
    | .error _ => true
    | .ok _ => false
  | _ => false

/-! ## `generate_speech` and `transcribe_audio` (dashboard.py lines 313-365) -/

/-- The default voice id (dashboard.py line 321). -/
def defaultVoiceId : PyStr := "onwK4e9ZLuTAKqWW03F9".data

/-- `generate_speech` (dashboard.py lines 313-342).  `apiKey` is
`os.getenv('ELEVENLABS_API_KEY')` (`if not api_key:` is a truthiness
test, so an unset or empty key shows the error); `selectedVoice` is
`st.session_state.get('selected_voice_id', default)`; `apiResponse` is
the outcome of the text-to-speech call, a stream of byte chunks that the
function concatenates. -/
def generate_speech (apiKey : Option PyStr) (selectedVoice : Option PyStr)
    (apiResponse : Except PyStr (List (List Nat))) : CallResult (List Nat) :=
  match apiKey with
  | none => .errorShown
  | some [] => .errorShown
  | some (_ :: _) =>
    let _voice := selectedVoice.getD defaultVoiceId
    match apiResponse with
    | .error _ => .errorShown
    | .ok chunks => .ok (chunks.foldl (fun acc c => acc ++ c) [])

/-- `transcribe_audio` (dashboard.py lines 344-365).  The key check is
the same truthiness test as in `generate_speech`; `apiResponse` is the
outcome of the speech-to-text call (its `.text` field on success). -/
def transcribe_audio (apiKey : Option PyStr) (apiResponse : Except PyStr PyStr) :
    CallResult PyStr :=
  match apiKey with
  | none => .errorShown
  | some [] => .errorShown
  | some (_ :: _) =>
    match apiResponse with
    | .error _ => .errorShown
    | .ok t => .ok t

/-! ## Session state: questions editor (dashboard.py lines 206-311) -/

/-- The slice of `st.session_state` used by the questions editor.
`none` models a key absent from the session state. -/
structure QuestionsState where
  generated_questions : Option (List PyStr)
  uploaded_questions : Option (List PyStr)
  editing_questions : Bool
  editing_questions_list : Option (List PyStr)

/-- The Save Changes handler of the questions editor (dashboard.py
lines 265-285), statement by statement: filter out blank entries, delete
both question keys, store the survivors under `generated_questions`,
leave edit mode, delete the editing buffer. -/
def saveQuestions (s : QuestionsState) : QuestionsState :=
  let valid := (s.editing_questions_list.getD []).filter
    (fun q => !(pyStrip q).isEmpty)
  let s1 := { s with generated_questions := none }
  let s2 := { s1 with uploaded_questions := none }
  let s3 := { s2 with generated_questions := some valid }
  let s4 := { s3 with editing_questions := false }
  { s4 with editing_questions_list := none }

/-- The Cancel handler of the questions editor (dashboard.py
lines 287-291): leave edit mode and delete the editing buffer. -/
def cancelQuestions (s : QuestionsState) : QuestionsState :=
  { s with editing_questions := false, editing_questions_list := none }

/-- The view-mode download data for the question list (dashboard.py
line 304): `f"{i}. {q.split(' ', 1)[1] if ' ' in q else q}"` joined by
newlines over `enumerate(questions_to_show, 1)`. -/
def downloadQuestionsText (questionsToShow : List PyStr) : PyStr :=
  pyJoin ['\n'] ((enumFrom 1 questionsToShow).map
    (fun p => pyNat p.1 ++ ('.' :: ' ' :: []) ++
      (if p.2.contains ' ' then afterFirst ' ' p.2 else p.2)))

/-- Claim-side download data of C5: each line is the 1-based index, a
period and a space, then the question text verbatim. -/
def claimedDownloadText (questionsToShow : List PyStr) : PyStr :=
  pyJoin ['\n'] ((enumFrom 1 questionsToShow).map
    (fun p => pyNat p.1 ++ ('.' :: ' ' :: []) ++ p.2))

/-! ## Session state: rubric editor (dashboard.py lines 527-609) -/

/-- The slice of `st.session_state` used by the rubric editor (the code
runs only when `rubric_criteria` is present, so it is a plain list). -/
structure RubricState where
  rubric_criteria : List PyStr
  editing_rubric : Bool
  editing_criteria : Option (List PyStr)

/-- The Save Changes handler of the rubric editor (dashboard.py
lines 577-586): filter out blank criteria, store them, leave edit mode,
delete the editing buffer. -/
def saveRubric (s : RubricState) : RubricState :=
  let filtered := (s.editing_criteria.getD []).filter
    (fun c => !(pyStrip c).isEmpty)
  let s1 := { s with rubric_criteria := filtered }
  let s2 := { s1 with editing_rubric := false }
  { s2 with editing_criteria := none }

/-- The Cancel handler of the rubric editor (dashboard.py
lines 587-592). -/
def cancelRubric (s : RubricState) : RubricState :=
  { s with editing_rubric := false, editing_criteria := none }

/-! ## Helper lemmas -/

theorem pySplitOnAux_no_sep {sep : Char} {s : PyStr} (h : sep ∉ s) :
    pySplitOnAux sep s = (s, []) := by
  induction s with
  | nil => rfl
  | cons c rest ih =>
    have hc : ¬ c = sep := by
      intro hcs
      exact h (hcs ▸ List.mem_cons_self c rest)
    have hr : sep ∉ rest := fun hm => h (List.mem_cons_of_mem _ hm)
    simp only [pySplitOnAux, ih hr, if_neg hc]

theorem pySplitOnAux_append_sep {sep : Char} {x : PyStr} (ys : PyStr) (h : sep ∉ x) :
    pySplitOnAux sep (x ++ sep :: ys) = (x, pySplitOn sep ys) := by
  induction x with
  | nil =>
    simp [pySplitOnAux, pySplitOn]
  | cons c x' ih =>
    have hc : ¬ c = sep := by
      intro hcs
      exact h (hcs ▸ List.mem_cons_self c x')
    have hx : sep ∉ x' := fun hm => h (List.mem_cons_of_mem _ hm)
    simp only [List.cons_append, pySplitOnAux, List.append_eq, ih hx, if_neg hc]

theorem pySplitOn_join {sep : Char} (qs : List PyStr) (hne : qs ≠ [])
    (h : ∀ q ∈ qs, sep ∉ q) : pySplitOn sep (pyJoin [sep] qs) = qs := by
  induction qs with
  | nil => exact absurd rfl hne
  | cons q qs' ih =>
    cases qs' with
    | nil =>
      have hq : sep ∉ q := h q (List.mem_cons_self _ _)
      simp only [pyJoin, pySplitOn, pySplitOnAux_no_sep hq]
    | cons y rest =>
      have hq : sep ∉ q := h q (List.mem_cons_self _ _)
      have hrest : ∀ p ∈ y :: rest, sep ∉ p :=
        fun p hp => h p (List.mem_cons_of_mem _ hp)
      have hjoin : pyJoin [sep] (q :: y :: rest) =
          q ++ sep :: pyJoin [sep] (y :: rest) := by
        simp [pyJoin]
      rw [hjoin]
      unfold pySplitOn
      rw [pySplitOnAux_append_sep _ hq]
      show q :: pySplitOn sep (pyJoin [sep] (y :: rest)) = q :: y :: rest
      rw [ih (by simp) hrest]

theorem map_eq_self_of_fixed {α : Type} {f : α → α} {l : List α}
    (h : ∀ x ∈ l, f x = x) : l.map f = l := by
  induction l with
  | nil => rfl
  | cons x xs ih =>
    simp only [List.map_cons, h x (List.mem_cons_self _ _),
      ih (fun y hy => h y (List.mem_cons_of_mem _ hy))]

theorem mem_pyStrip {c : Char} {s : PyStr} (h : c ∈ pyStrip s) : c ∈ s := by
  unfold pyStrip at h
  rw [List.mem_reverse] at h
  have h1 := (List.dropWhile_sublist (l := (s.dropWhile isPySpace).reverse) isPySpace).mem h
  rw [List.mem_reverse] at h1
  exact (List.dropWhile_sublist (l := s) isPySpace).mem h1

theorem mem_pyReplaceAux {pat : PyStr} {c : Char} :
    ∀ (fuel : Nat) (s : PyStr), c ∈ pyReplaceAux pat fuel s → c ∈ s := by
  intro fuel
  induction fuel with
  | zero =>
    intro s h
    cases s with
    | nil => simp [pyReplaceAux] at h
    | cons x rest => exact h
  | succ n ih =>
    intro s h
    cases s with
    | nil => simp [pyReplaceAux] at h
    | cons x rest =>
      rw [pyReplaceAux] at h
      by_cases hp : pat ≠ [] ∧ pat.isPrefixOf (x :: rest) = true
      · rw [if_pos hp] at h
        exact List.mem_of_mem_drop (ih _ h)
      · rw [if_neg hp] at h
        rcases List.mem_cons.mp h with h1 | h1
        · exact h1 ▸ List.mem_cons_self _ _
        · exact List.mem_cons_of_mem _ (ih _ h1)

theorem mem_pyReplace {pat : PyStr} {c : Char} {s : PyStr}
    (h : c ∈ pyReplace pat s) : c ∈ s :=
  mem_pyReplaceAux _ _ h

theorem mem_afterFirst {sep c : Char} {s : PyStr} (h : c ∈ afterFirst sep s) : c ∈ s := by
  induction s with
  | nil => simp [afterFirst] at h
  | cons x rest ih =>
    rw [afterFirst] at h
    by_cases hx : x = sep
    · rw [if_pos hx] at h
      exact List.mem_cons_of_mem _ h
    · rw [if_neg hx] at h
      exact List.mem_cons_of_mem _ (ih h)

theorem parseQuestionLines_eq (ls : List PyStr)
    (H : ∀ l ∈ ls, keepLine (pyStrip l) = true → digitLead (pyStrip l) = true →
      (pyStrip l).contains '.' = true) :
    parseQuestionLines ls =
      some (((ls.map pyStrip).filter keepLine).map numberingDropped) := by
  induction ls with
  | nil => rfl
  | cons raw rest ih =>
    have hrest : ∀ l ∈ rest, keepLine (pyStrip l) = true →
        digitLead (pyStrip l) = true → (pyStrip l).contains '.' = true :=
      fun l hl => H l (List.mem_cons_of_mem _ hl)
    rw [parseQuestionLines]
    by_cases hk : keepLine (pyStrip raw) = true
    · by_cases hd : digitLead (pyStrip raw) = true
      · have hdot := H raw (List.mem_cons_self _ _) hk hd
        have hdot' : '.' ∈ pyStrip raw := by simpa using hdot
        simp [hk, stripNumbering, hd, hdot', ih hrest, numberingDropped]
      · simp [hk, stripNumbering, hd, ih hrest, numberingDropped]
    · simp [hk, ih hrest]

theorem rubricPostFilter_eq_some {crit c : PyStr} (h : rubricPostFilter crit = some c) :
    c.isEmpty = false ∧ (c.getLast? == some ':') = false ∧ ∀ ch ∈ c, ch ∈ crit := by
  unfold rubricPostFilter at h
  by_cases h1 : (!crit.isEmpty && decide (crit.length > 5)) = true
  · rw [if_pos h1] at h
    by_cases h2 : (!(pyStrip (pyReplace ('_' :: '_' :: [])
        (pyReplace ('*' :: '*' :: []) crit))).isEmpty &&
        !((pyStrip (pyReplace ('_' :: '_' :: [])
          (pyReplace ('*' :: '*' :: []) crit))).getLast? == some ':')) = true
    · rw [if_pos h2] at h
      have hc : c = pyStrip (pyReplace ('_' :: '_' :: [])
          (pyReplace ('*' :: '*' :: []) crit)) := (Option.some_inj.mp h).symm
      rcases Bool.and_eq_true_iff.mp h2 with ⟨h2a, h2b⟩
      refine ⟨?_, ?_, ?_⟩
      · rw [hc]
        simpa using h2a
      · rw [hc]
        simpa using h2b
      · intro ch hch
        rw [hc] at hch
        exact mem_pyReplace (mem_pyReplace (mem_pyStrip hch))
    · rw [if_neg h2] at h
      simp at h
  · rw [if_neg h1] at h
    simp at h

theorem rubricLineCriterion_no_checkbox {line : PyStr}
    (h : (rubricLineCriterion line).1 = true) :
    ∀ ch ∈ (rubricLineCriterion line).2, checkboxChars.contains ch = false := by
  unfold rubricLineCriterion at *
  by_cases h1 : hasCheckbox line = true
  · simp only [if_pos h1]
    intro ch hch
    have hm := mem_pyStrip hch
    rcases List.mem_filter.mp hm with ⟨_, hb⟩
    simpa using hb
  · have hnb : ∀ ch ∈ line, checkboxChars.contains ch = false := by
      intro ch hch
      cases hb : checkboxChars.contains ch with
      | false => rfl
      | true =>
        exact absurd (show hasCheckbox line = true from
          List.any_eq_true.mpr ⟨ch, hch, hb⟩) h1
    rw [if_neg h1] at *
    by_cases h2 : bulletLead line = true
    · simp only [if_pos h2]
      intro ch hch
      exact hnb ch (List.mem_of_mem_tail (mem_pyStrip hch))
    · rw [if_neg h2] at *
      by_cases h3 : numberLead line = true
      · simp only [if_pos h3]
        intro ch hch
        by_cases h4 : line.contains '.' = true
        · rw [if_pos h4] at hch
          exact hnb ch (mem_afterFirst (mem_pyStrip hch))
        · rw [if_neg h4] at hch
          exact hnb ch hch
      · rw [if_neg h3] at *
        by_cases h5 : (decide (line.length > 10) &&
            rubricKeywords.any (fun w => containsSeq w (pyLower line))) = true
        · simp only [if_pos h5]
          exact hnb
        · rw [if_neg h5] at h
          simp at h

/-! ## Claims -/

/-- Claim C1: uploaded question parsing round-trips a known question list.
A JSON bare array of the questions and a JSON object holding them under the
key `'questions'` (file type `application/json`) parse back to exactly that
list; and for questions that are non-empty, contain no newline and carry no
leading/trailing whitespace, the newline-joined text of the list parsed as a
text file also returns exactly that list. -/
theorem c1_upload_roundtrip (qs : List PyStr) :
    (∀ td, parse_uploaded_questions ⟨jsonMime, some (.arr (qs.map JVal.str)), td⟩ =
      .ok (.arr (qs.map JVal.str))) ∧
    (∀ td, parse_uploaded_questions
        ⟨jsonMime, some (.obj [("questions".data, .arr (qs.map JVal.str))]), td⟩ =
      .ok (.arr (qs.map JVal.str))) ∧
    ((∀ q ∈ qs, q ≠ [] ∧ '\n' ∉ q ∧ pyStrip q = q) →
      ∀ ty jp, ty ≠ jsonMime →
        parse_uploaded_questions ⟨ty, jp, some (pyJoin ['\n'] qs)⟩ =
          .ok (.arr (qs.map JVal.str))) := by
  refine ⟨?_, ?_, ?_⟩
  · intro td
    simp [parse_uploaded_questions]
  · intro td
    simp [parse_uploaded_questions, dictGet]
  · intro h ty jp hty
    have key : (((pySplitOn '\n' (pyJoin ['\n'] qs)).map pyStrip).filter
        (fun l => !l.isEmpty)) = qs := by
      cases qs with
      | nil => rfl
      | cons q qs' =>
        rw [pySplitOn_join (q :: qs') (by simp) (fun p hp => (h p hp).2.1)]
        rw [map_eq_self_of_fixed (fun p hp => (h p hp).2.2)]
        rw [List.filter_eq_self.mpr ?_]
        intro p hp
        simpa using (h p hp).1
    unfold parse_uploaded_questions
    rw [if_neg hty]
    show CallResult.ok (JVal.arr ((((pySplitOn '\n' (pyJoin ['\n'] qs)).map
      pyStrip).filter (fun l => !l.isEmpty)).map JVal.str)) = _
    rw [key]

theorem c1_upload_roundtrip_witness :
    parse_uploaded_questions ⟨jsonMime,
        some (.arr (["Why is the sky blue?".data, "Define a group.".data].map JVal.str)),
        none⟩ =
      .ok (.arr (["Why is the sky blue?".data, "Define a group.".data].map JVal.str)) ∧
    parse_uploaded_questions ⟨"text/plain".data, none,
        some (pyJoin ['\n'] ["Why is the sky blue?".data, "Define a group.".data])⟩ =
      .ok (.arr (["Why is the sky blue?".data, "Define a group.".data].map JVal.str)) :=
  ⟨(c1_upload_roundtrip _).1 none,
   (c1_upload_roundtrip _).2.2 (by decide) ("text/plain".data) none (by decide)⟩

/-- Claim C2 (amended): the parsing step of `generate_questions` returns
exactly the non-empty stripped lines containing a `'.'` or a `'?'`, with the
text up to and including the first `'.'` dropped and the remainder stripped on
every kept line whose first character is a digit, and every other kept line
unchanged — provided every kept line whose first character is a digit contains
a `'.'`.  (A kept digit-led line without a `'.'` raises `IndexError`, making
the parse fail; see the counterexample.) -/
theorem c2_parse_strips_numbering (content : PyStr)
    (H : ∀ l ∈ pySplitOn '\n' (pyStrip content), keepLine (pyStrip l) = true →
      digitLead (pyStrip l) = true → (pyStrip l).contains '.' = true) :
    parse_questions content =
      some ((((pySplitOn '\n' (pyStrip content)).map pyStrip).filter keepLine).map
        numberingDropped) :=
  parseQuestionLines_eq _ H

/-- A representative model response for the C2 witness. -/
def c2WitnessContent : PyStr :=
  "1. What is a group?\n\nsome preamble\n2. Why?".data

theorem c2_parse_strips_numbering_witness :
    parse_questions c2WitnessContent =
      some ((((pySplitOn '\n' (pyStrip c2WitnessContent)).map pyStrip).filter
        keepLine).map numberingDropped) :=
  c2_parse_strips_numbering c2WitnessContent (by decide)

theorem c2_counterexample : parse_questions ('2' :: '?' :: []) = none := rfl

/-- Claim C3: pressing Save Changes in the questions editor stores exactly
the entries of the editing list whose `strip()` is non-empty, and pressing
Save Changes in the rubric editor stores exactly the entries of
`editing_criteria` whose `strip()` is non-empty; after either save the
stored list contains no blank entry. -/
theorem c3_save_filters_blanks (s : QuestionsState) (r : RubricState) :
    (saveQuestions s).generated_questions =
      some ((s.editing_questions_list.getD []).filter (fun q => !(pyStrip q).isEmpty)) ∧
    ((saveQuestions s).generated_questions.getD []).all
      (fun q => !(pyStrip q).isEmpty) = true ∧
    (saveRubric r).rubric_criteria =
      (r.editing_criteria.getD []).filter (fun c => !(pyStrip c).isEmpty) ∧
    ((saveRubric r).rubric_criteria).all (fun c => !(pyStrip c).isEmpty) = true := by
  refine ⟨rfl, ?_, rfl, ?_⟩
  · rw [List.all_eq_true]
    intro q hq
    exact (List.mem_filter.mp hq).2
  · rw [List.all_eq_true]
    intro c hc
    exact (List.mem_filter.mp hc).2

/-- Claim C4 (amended): `generate_questions`, `parse_uploaded_questions`,
`generate_speech` and `transcribe_audio` never let an exception escape —
every failure (missing key, API exception, decode error, malformed upload,
parse error) yields `None` after an error message.  `generate_rubric`,
however, formats the custom prompt before its `try` block: it propagates an
exception exactly when the key is truthy (set and non-empty) and the
(non-empty) custom prompt's `format` call raises; in every other case it,
too, surfaces failures as messages. -/
theorem c4_failures_surface (k : Option PyStr) (topic d : PyStr) (n : Nat)
    (r1 r2 r3 : Except PyStr PyStr) (f : UploadedFile) (v : Option PyStr)
    (ra : Except PyStr (List (List Nat))) (qs : List PyStr) (p : Option PyStr) :
    isUncaught (generate_questions k topic n d r1) = false ∧
    isUncaught (parse_uploaded_questions f) = false ∧
    isUncaught (generate_speech k v ra) = false ∧
    isUncaught (transcribe_audio k r2) = false ∧
    isUncaught (generate_rubric k topic qs p r3) =
      (keyTruthy k && rubricFormatErr topic qs p) := by
  refine ⟨?_, ?_, ?_, ?_, ?_⟩
  · cases k with
    | none => rfl
    | some key =>
      cases key with
      | nil => rfl
      | cons k0 ks =>
        cases r1 with
        | error e => rfl
        | ok content =>
          cases hp : parse_questions content with
          | none => simp [generate_questions, isUncaught, hp]
          | some qs' => simp [generate_questions, isUncaught, hp]
  · rcases f with ⟨ty, jp, td⟩
    by_cases hty : ty = jsonMime
    · cases jp with
      | none => simp [parse_uploaded_questions, hty, isUncaught]
      | some w =>
        cases w with
        | obj fields =>
          cases hdg : dictGet ("questions".data) fields with
          | none => simp [parse_uploaded_questions, hty, isUncaught, hdg]
          | some u => simp [parse_uploaded_questions, hty, isUncaught, hdg]
        | null => simp [parse_uploaded_questions, hty, isUncaught]
        | bool b => simp [parse_uploaded_questions, hty, isUncaught]
        | num m => simp [parse_uploaded_questions, hty, isUncaught]
        | str t => simp [parse_uploaded_questions, hty, isUncaught]
        | arr xs => simp [parse_uploaded_questions, hty, isUncaught]
    · cases td with
      | none => simp [parse_uploaded_questions, hty, isUncaught]
      | some content => simp [parse_uploaded_questions, hty, isUncaught]
  · cases k with
    | none => rfl
    | some key =>
      cases key with
      | nil => rfl
      | cons k0 ks => cases ra <;> rfl
  · cases k with
    | none => rfl
    | some key =>
      cases key with
      | nil => rfl
      | cons k0 ks => cases r2 <;> rfl
  · cases k with
    | none => rfl
    | some key =>
      cases key with
      | nil => rfl
      | cons k0 ks =>
        cases p with
        | none => cases r3 <;> rfl
        | some cp =>
          cases cp with
          | nil => cases r3 <;> rfl
          | cons c cs =>
            cases hf : pyFormat topic (questionsText qs) (c :: cs) with
            | error e =>
              simp [generate_rubric, isUncaught, rubricFormatErr, keyTruthy, hf]
            | ok pr =>
              cases r3 with
              | error e2 =>
                simp [generate_rubric, isUncaught, rubricFormatErr, keyTruthy, hf]
              | ok content =>
                simp [generate_rubric, isUncaught, rubricFormatErr, keyTruthy, hf]

theorem c4_counterexample :
    generate_rubric (some ("k".data)) ("t".data) [] (some ('{' :: 'x' :: '}' :: []))
      (.ok []) = .uncaught ('x' :: []) := rfl

/-- Claim C6: with the relevant API key unset (`None`), each of
`generate_questions`, `generate_rubric`, `generate_speech` and
`transcribe_audio` returns `None` after showing an error, whatever the other
inputs — in particular the result never depends on the API response, so the
API is not contacted. -/
theorem c6_missing_credentials (topic d : PyStr) (n : Nat)
    (r1 r2 r3 : Except PyStr PyStr) (qs : List PyStr) (p v : Option PyStr)
    (ra : Except PyStr (List (List Nat))) :
    generate_questions none topic n d r1 = .errorShown ∧
    generate_rubric none topic qs p r3 = .errorShown ∧
    generate_speech none v ra = .errorShown ∧
    transcribe_audio none r2 = .errorShown :=
  ⟨rfl, rfl, rfl, rfl⟩

/-- Claim C5: the download data produced for the question list drops each
question's first word (`q.split(' ', 1)[1]`), so it is not the displayed
question text verbatim: for the single question `"What is a group?"` the
code produces `"1. is a group?"` while the claimed format is
`"1. What is a group?"`. -/
theorem c5_download_drops_first_word :
    downloadQuestionsText ["What is a group?".data] = "1. is a group?".data ∧
    claimedDownloadText ["What is a group?".data] = "1. What is a group?".data :=
  ⟨rfl, rfl⟩

/-- Claim C7: for a file of type `application/json`,
`parse_uploaded_questions` returns `None` exactly when the content is not
valid UTF-8 JSON or its top level is neither a list nor a dict containing
the key `'questions'`; otherwise it returns the list itself, or the value
under `'questions'`. -/
theorem c7_malformed_json_rejected (v? : Option JVal) (td : Option PyStr) :
    (parse_uploaded_questions ⟨jsonMime, v?, td⟩ = .errorShown ↔
      jsonTopLevelOk v? = false) ∧
    (∀ xs, v? = some (.arr xs) →
      parse_uploaded_questions ⟨jsonMime, v?, td⟩ = .ok (.arr xs)) ∧
    (∀ fields w, v? = some (.obj fields) →
      dictGet ("questions".data) fields = some w →
      parse_uploaded_questions ⟨jsonMime, v?, td⟩ = .ok w) := by
  refine ⟨?_, ?_, ?_⟩
  · cases v? with
    | none => simp [parse_uploaded_questions, jsonTopLevelOk]
    | some w =>
      cases w with
      | obj fields =>
        cases hdg : dictGet ("questions".data) fields with
        | none => simp [parse_uploaded_questions, jsonTopLevelOk, hdg]
        | some u => simp [parse_uploaded_questions, jsonTopLevelOk, hdg]
      | null => simp [parse_uploaded_questions, jsonTopLevelOk]
      | bool b => simp [parse_uploaded_questions, jsonTopLevelOk]
      | num m => simp [parse_uploaded_questions, jsonTopLevelOk]
      | str t => simp [parse_uploaded_questions, jsonTopLevelOk]
      | arr xs => simp [parse_uploaded_questions, jsonTopLevelOk]
  · intro xs hxs
    subst hxs
    simp [parse_uploaded_questions]
  · intro fields w hf hdg
    subst hf
    simp [parse_uploaded_questions, hdg]

theorem c7_malformed_json_rejected_witness :
    parse_uploaded_questions ⟨jsonMime,
        some (.obj [("questions".data, .arr [JVal.str ("Why?".data)])]), none⟩ =
      .ok (.arr [JVal.str ("Why?".data)]) :=
  (c7_malformed_json_rejected
    (some (.obj [("questions".data, .arr [JVal.str ("Why?".data)])])) none).2.2
    [("questions".data, .arr [JVal.str ("Why?".data)])]
    (.arr [JVal.str ("Why?".data)]) rfl rfl

/-- Claim C8 (amended): every criterion returned by the rubric parsing step
is non-empty, does not end with `':'`, and contains none of the checkbox
characters; leading bullet characters and leading numbered-list prefixes are
removed from kept lines as stated.  The `length > 5` check and the
`'**'`/`'__'` removal happen in that order, so a returned criterion may have
length at most 5 and may even contain `'**'` or `'__'` recreated by the
removal (see the counterexample). -/
theorem c8_rubric_criteria_invariant (content : PyStr) (line : PyStr) :
    (parse_rubric content).all
      (fun c => !c.isEmpty && !(c.getLast? == some ':') &&
        c.all (fun ch => !checkboxChars.contains ch)) = true ∧
    (hasCheckbox line = false → bulletLead line = true →
      rubricLineCriterion line = (true, pyStrip line.tail)) ∧
    (hasCheckbox line = false → bulletLead line = false → numberLead line = true →
      rubricLineCriterion line =
        (true, if line.contains '.' then pyStrip (afterFirst '.' line) else line)) := by
  refine ⟨?_, ?_, ?_⟩
  · rw [List.all_eq_true]
    intro c hc
    rcases List.mem_filterMap.mp hc with ⟨raw, _, hraw⟩
    unfold rubricLineResult at hraw
    by_cases hemp : (pyStrip raw).isEmpty = true
    · rw [if_pos hemp] at hraw
      simp at hraw
    · rw [if_neg hemp] at hraw
      by_cases hcrit : (rubricLineCriterion (pyStrip raw)).1 = true
      · rw [if_pos hcrit] at hraw
        rcases rubricPostFilter_eq_some hraw with ⟨he, hl, hsub⟩
        have hnb := rubricLineCriterion_no_checkbox hcrit
        rw [he, hl]
        simp only [Bool.not_false, Bool.true_and]
        rw [List.all_eq_true]
        intro ch hch
        rw [hnb ch (hsub ch hch)]
        rfl
      · rw [if_neg hcrit] at hraw
        simp at hraw
  · intro h1 h2
    unfold rubricLineCriterion
    rw [if_neg (by simp [h1]), if_pos h2]
  · intro h1 h2 h3
    unfold rubricLineCriterion
    rw [if_neg (by simp [h1]), if_neg (by simp [h2]), if_pos h3]

theorem c8_rubric_criteria_invariant_witness :
    (parse_rubric ("☐ Student explains the topic clearly".data)).all
      (fun c => !c.isEmpty && !(c.getLast? == some ':') &&
        c.all (fun ch => !checkboxChars.contains ch)) = true ∧
    rubricLineCriterion ("- shows preparation".data) =
      (true, pyStrip ("- shows preparation".data).tail) :=
  ⟨(c8_rubric_criteria_invariant ("☐ Student explains the topic clearly".data)
      ("- shows preparation".data)).1,
   (c8_rubric_criteria_invariant ("☐ Student explains the topic clearly".data)
      ("- shows preparation".data)).2.1 (by decide) (by decide)⟩

theorem c8_counterexample :
    parse_rubric ("- *__*ab".data) = [('*' :: '*' :: 'a' :: 'b' :: [])] ∧
    ('*' :: '*' :: 'a' :: 'b' :: ([] : PyStr)).length ≤ 5 :=
  ⟨rfl, by decide⟩

/-- Claim C9: pressing Save Changes in the questions editor merges the two
question lists: `uploaded_questions` is removed from the session state, all
surviving (non-blank) edited questions are stored under
`generated_questions`, the editing buffer is deleted, and edit mode is off. -/
theorem c9_save_merges_lists (s : QuestionsState) :
    (saveQuestions s).uploaded_questions = none ∧
    (saveQuestions s).generated_questions =
      some ((s.editing_questions_list.getD []).filter (fun q => !(pyStrip q).isEmpty)) ∧
    (saveQuestions s).editing_questions_list = none ∧
    (saveQuestions s).editing_questions = false :=
  ⟨rfl, rfl, rfl, rfl⟩

/-- Claim C10: Cancel is atomic — cancelling the questions editor leaves
`generated_questions` and `uploaded_questions` exactly as they were and only
discards the editing buffer and flag, and cancelling the rubric editor
leaves `rubric_criteria` unchanged and only discards `editing_criteria` and
the flag. -/
theorem c10_cancel_atomic (s : QuestionsState) (r : RubricState) :
    (cancelQuestions s).generated_questions = s.generated_questions ∧
    (cancelQuestions s).uploaded_questions = s.uploaded_questions ∧
    (cancelQuestions s).editing_questions = false ∧
    (cancelQuestions s).editing_questions_list = none ∧
    (cancelRubric r).rubric_criteria = r.rubric_criteria ∧
    (cancelRubric r).editing_rubric = false ∧
    (cancelRubric r).editing_criteria = none :=
  ⟨rfl, rfl, rfl, rfl, rfl, rfl, rfl⟩

end OralExamBot
